/-
Verification of the textfit-web-component measurement-and-search core.

This file shallowly embeds the core algorithms of the repository:

* `limiter` (src/limiter.js): the font-size binary search.  Font sizes are
  modelled as rationals; the JavaScript `toFixed(2)` rounding is modelled by
  `round2` (round half toward positive infinity at two decimal places, which
  is the ECMAScript `toFixed` tie rule).  The element is modelled by
  `ElemState` (its inline font-size style and its class list); the external
  layout engine is modelled by a `Measure` oracle giving the width / height /
  line-count / overflow observations the code reads back after applying a
  candidate font size.  `NaN` results of `getWidth` / `getHeight` before the
  search are modelled by `Option` (`none` = NaN).  The mutation
  `settings.widthOnly = true` performed by the source is modelled by
  returning the post-call settings object in the result record.

* `checkOverflow` (src/utilities.js): the overflow-policy evaluator.  The
  element observations it reads (scrollHeight, computed max-height, bounding
  boxes, viewport) are the fields of `OElem`; JavaScript string-to-number
  coercion (`isNaN(mode)`) and `parseFloat` are external host functions and
  are passed as oracles (`none` = NaN).  The `undefined` value produced by
  falling through every branch is modelled by `Option Bool` = `none`; the
  `console.warn` side effect is recorded in the `warned` field.

* `textNodesUnder` and `lineCount` (src/unnamed/part_001, the canonical
  line-counting variant per the repository): the DOM is modelled by the
  nested inductive `DomNode`; elements are identified by their child-index
  paths from the root (`[]` is the root element itself), and the DOM
  `Node.contains` relation is path prefixing (`containsPath`).  Layout
  measurements made during line counting come from the `LcMeasure` oracle.
  The source's reference to the undeclared identifier `elementId` in the
  `naturalNodeHeight <= 0` branch is modelled by `Except.error`
  (a thrown ReferenceError aborts the whole pass).
-/

import Mathlib

namespace TextFit

/-! ### Two-decimal rounding (`Number.prototype.toFixed(2)` followed by `parseFloat`) -/

/-- Round a rational to two decimal places, ties toward positive infinity.
This models `parseFloat(x.toFixed(2))` from src/limiter.js line 62. -/
def round2 (x : ℚ) : ℚ := (⌊x * 100 + 1/2⌋ : ℤ) / 100

theorem round2_le (x : ℚ) : round2 x ≤ x + 1/200 := by
  unfold round2
  have h := Int.floor_le (x * 100 + 1/2)
  rw [div_le_iff₀ (by norm_num : (0:ℚ) < 100)]
  linarith

theorem round2_gt (x : ℚ) : x - 1/200 < round2 x := by
  unfold round2
  have h := Int.lt_floor_add_one (x * 100 + 1/2)
  rw [lt_div_iff₀ (by norm_num : (0:ℚ) < 100)]
  linarith

theorem round2_mono {x y : ℚ} (h : x ≤ y) : round2 x ≤ round2 y := by
  unfold round2
  have hf : (⌊x * 100 + 1/2⌋ : ℤ) ≤ ⌊y * 100 + 1/2⌋ := by
    apply Int.floor_le_floor
    linarith
  have hc : ((⌊x * 100 + 1/2⌋ : ℤ) : ℚ) ≤ ((⌊y * 100 + 1/2⌋ : ℤ) : ℚ) := by
    exact_mod_cast hf
  linarith

/-- A rational lying on the two-decimal grid. -/
def Centi (x : ℚ) : Prop := ∃ k : ℤ, x = (k : ℚ) / 100

theorem round2_centi {x : ℚ} (h : Centi x) : round2 x = x := by
  obtain ⟨k, rfl⟩ := h
  unfold round2
  have : (k : ℚ) / 100 * 100 + 1/2 = (k : ℚ) + 1/2 := by ring
  rw [this]
  have hfl : ⌊(k : ℚ) + 1/2⌋ = k := by
    rw [Int.floor_eq_iff]
    constructor
    · linarith
    · have hc : ((k + 1 : ℤ) : ℚ) = (k : ℚ) + 1 := by push_cast; ring
      norm_num
  rw [hfl]

theorem centi_round2 (x : ℚ) : Centi (round2 x) := ⟨⌊x * 100 + 1/2⌋, rfl⟩

theorem centi_add_hundredth {x : ℚ} (h : Centi x) : Centi (x + 1/100) := by
  obtain ⟨k, rfl⟩ := h
  exact ⟨k + 1, by push_cast; ring⟩

theorem centi_sub_hundredth {x : ℚ} (h : Centi x) : Centi (x - 1/100) := by
  obtain ⟨k, rfl⟩ := h
  exact ⟨k - 1, by push_cast; ring⟩

/-- For endpoints on the two-decimal grid, the rounded midpoint stays inside
the interval. -/
theorem round2_mid_mem {low high : ℚ} (hl : Centi low) (hh : Centi high)
    (h : low ≤ high) : low ≤ round2 ((high + low) / 2) ∧ round2 ((high + low) / 2) ≤ high := by
  constructor
  · have h1 : low ≤ (high + low) / 2 := by linarith
    calc low = round2 low := (round2_centi hl).symm
    _ ≤ round2 ((high + low) / 2) := round2_mono h1
  · have h2 : (high + low) / 2 ≤ high := by linarith
    calc round2 ((high + low) / 2) ≤ round2 high := round2_mono h2
    _ = high := round2_centi hh

/-! ### The font-size limiter (src/limiter.js) -/

/-- The emotion-generated class applied at src/limiter.js line 38
(`width: 100%`). Modelled as an opaque-but-distinct class-name string. -/
def fullWidthClass : String := "fullWidth"

/-- The emotion-generated class applied at src/limiter.js lines 46 and 66
(`height: 100%`). -/
def growInHeightClass : String := "growInHeight"

/-- `classList.add`: appends the token when it is not already present. -/
def addClass (cs : List String) (c : String) : List String :=
  if c ∈ cs then cs else cs ++ [c]

/-- `classList.remove`: removes every occurrence of the token. -/
def removeClass (cs : List String) (c : String) : List String :=
  cs.filter (fun d => d ≠ c)

/-- The mutable visual state of the element that `limiter` touches: the
inline `style.fontSize` (value and unit) and the class list. -/
structure ElemState where
  styleFontSize : Option (ℚ × String)
  classes : List String
deriving DecidableEq

/-- The Fit Settings object passed to `limiter` (src/limiter.js lines 36-56).
`maxLines` and `maxHeight` are `false` (`none`) or a value; numbers are
rationals (`NaN` inputs are not modelled, since the caller in src/textfit.js
replaces unparsable attributes by defaults via `||`). -/
structure Settings where
  maxFontSize : ℚ
  minFontSize : ℚ
  fontUnit : String
  growInHeight : Bool
  widthOnly : Bool
  maxLines : Option ℚ
  maxHeight : Option String
deriving DecidableEq

/-- The measurement oracle: what the external layout engine reports to
`limiter`.  `initWidth` / `initHeight` are `getWidth(el)` / `getHeight(el)`
before the search (`none` = NaN, the element is not laid out); the `...At`
fields give the observations read back after `el.style.fontSize` is set to a
candidate size.  `overflowAt` is the result of
`checkOverflow(el, settings.maxHeight)` at that size (`none` = `undefined`). -/
structure Measure where
  initWidth : Option ℚ
  initHeight : Option ℚ
  widthAt : ℚ → ℚ
  heightAt : ℚ → ℚ
  lineCountAt : ℚ → ℚ
  overflowAt : ℚ → Option Bool

/-- One probe of the binary search (src/limiter.js lines 68-80): the three
fit predicates evaluated at candidate size `mid`, given the pre-search
original width `w0` and original height `h0` (`none` = NaN; a comparison
against NaN is false in JavaScript). -/
def probeFits (m : Measure) (s : Settings) (w0 : ℚ) (h0 : Option ℚ) (mid : ℚ) : Bool :=
  let scrollWidth := decide (m.widthAt mid ≤ w0)
  let scrollHeight := s.widthOnly ||
    (match h0 with
     | some h => decide (m.heightAt mid ≤ h)
     | none => false)
  let tooLarge1 : Bool :=
    match s.maxLines with
    | some n => if n = 0 then false else decide (m.lineCountAt mid > n)
    | none => false
  let maxHeightTruthy : Bool :=
    match s.maxHeight with
    | some p => decide (p ≠ "")
    | none => false
  let tooLarge2 : Bool :=
    if maxHeightTruthy && !tooLarge1 then (m.overflowAt mid).getD false else tooLarge1
  scrollWidth && scrollHeight && !tooLarge2

/-- The element-state mutations of one probe (src/limiter.js lines 63-70):
set `style.fontSize` to `mid + fontUnit`, add the grow-in-height class when
configured, then remove it again after measuring. -/
def probeElem (el : ElemState) (s : Settings) (mid : ℚ) (unit : String) : ElemState :=
  let el1 : ElemState := { el with styleFontSize := some (mid, unit) }
  let el2 : ElemState :=
    if s.growInHeight then { el1 with classes := addClass el1.classes growInHeightClass } else el1
  { el2 with classes := removeClass el2.classes growInHeightClass }

/-- The interval update of one binary-search iteration (src/limiter.js lines
62, 82-86), abstracted over the probe outcome: the new `(low, high)` pair. -/
def limiterStep (fits : ℚ → Bool) (low high : ℚ) : ℚ × ℚ :=
  let mid := round2 ((high + low) / 2)
  if fits mid then (mid + 1/100, high) else (low, mid - 1/100)

/-- The termination measure of the binary search: the interval length in
half-hundredth steps. -/
def loopMeasure (low high : ℚ) : ℕ := (⌊(high - low) * 200⌋ + 1).toNat

theorem loopMeasure_decr_fits {low high : ℚ} (h : low ≤ high) :
    loopMeasure (round2 ((high + low) / 2) + 1/100) high < loopMeasure low high := by
  unfold loopMeasure
  have hgt := round2_gt ((high + low) / 2)
  have hkey : (high - (round2 ((high + low) / 2) + 1/100)) * 200 ≤ (high - low) * 200 - 1 := by
    nlinarith
  have hmono : ⌊(high - (round2 ((high + low) / 2) + 1/100)) * 200⌋ ≤
      ⌊(high - low) * 200 - 1⌋ := Int.floor_le_floor hkey
  rw [show ((high - low) * 200 - 1 : ℚ) = (high - low) * 200 - (1 : ℤ) by push_cast; ring,
    Int.floor_sub_int] at hmono
  have hnn : (0 : ℤ) ≤ ⌊(high - low) * 200⌋ := by
    apply Int.floor_nonneg.mpr
    nlinarith
  omega

theorem loopMeasure_decr_shrink {low high : ℚ} (h : low ≤ high) :
    loopMeasure low (round2 ((high + low) / 2) - 1/100) < loopMeasure low high := by
  unfold loopMeasure
  have hle := round2_le ((high + low) / 2)
  have hkey : ((round2 ((high + low) / 2) - 1/100) - low) * 200 ≤ (high - low) * 200 - 1 := by
    nlinarith
  have hmono : ⌊((round2 ((high + low) / 2) - 1/100) - low) * 200⌋ ≤
      ⌊(high - low) * 200 - 1⌋ := Int.floor_le_floor hkey
  rw [show ((high - low) * 200 - 1 : ℚ) = (high - low) * 200 - (1 : ℤ) by push_cast; ring,
    Int.floor_sub_int] at hmono
  have hnn : (0 : ℤ) ≤ ⌊(high - low) * 200⌋ := by
    apply Int.floor_nonneg.mpr
    nlinarith
  omega

/-- The binary-search loop of `limiter` (src/limiter.js lines 61-87),
threading the element state through the probes.  Returns the converged
`fontSize` (the best fit) and the element state after the last probe. -/
def limiterLoop (m : Measure) (s : Settings) (w0 : ℚ) (h0 : Option ℚ) (unit : String)
    (low high fontSize : ℚ) (el : ElemState) : ℚ × ElemState :=
  if h : low ≤ high then
    let mid := round2 ((high + low) / 2)
    let el' := probeElem el s mid unit
    if probeFits m s w0 h0 mid then
      limiterLoop m s w0 h0 unit (mid + 1/100) high mid el'
    else
      limiterLoop m s w0 h0 unit low (mid - 1/100) fontSize el'
  else (fontSize, el)
termination_by loopMeasure low high
decreasing_by
  · exact loopMeasure_decr_fits h
  · exact loopMeasure_decr_shrink h

/-- The result of one `limiter` call: the returned value (`none` models the
`false` sentinel), the element state after the call, and the settings object
after the call (the source mutates `settings.widthOnly` in place at line 56;
the caller's object is returned here to make that mutation observable). -/
structure LimitResult where
  returned : Option ℚ
  elem : ElemState
  settings : Settings

/-- The font-size limiter, src/limiter.js lines 36-92.  The dead initial
assignment `fontSize = settings.maxFontSize || 100` (line 37) is elided: it
is overwritten by `fontSize = low` (line 58) before any use. -/
def limiter (el : ElemState) (s : Settings) (m : Measure) : LimitResult :=
  let el1 : ElemState := { el with classes := addClass el.classes fullWidthClass }
  let el2 : ElemState :=
    if s.growInHeight then { el1 with classes := addClass el1.classes growInHeightClass } else el1
  let fontUnit := if s.fontUnit = "" then "%" else s.fontUnit
  let low := if s.minFontSize = 0 then 0 else s.minFontSize
  let high := if s.maxFontSize = 0 then 100 else s.maxFontSize
  match m.initWidth with
  | none => { returned := none, elem := el2, settings := s }
  | some w0 =>
    let s' := if m.initHeight = none then { s with widthOnly := true } else s
    let r := limiterLoop m s' w0 m.initHeight fontUnit low high low el2
    let el3 : ElemState := { r.2 with classes := removeClass r.2.classes fullWidthClass }
    let el4 : ElemState := { el3 with styleFontSize := some (((⌊r.1⌋ : ℤ) : ℚ), fontUnit) }
    { returned := some r.1, elem := el4, settings := s' }

/-! ### The overflow-policy evaluator (src/utilities.js, `checkOverflow`) -/

/-- The layout observations `checkOverflow` reads from the element and its
surroundings.  `computedMaxHeight` is `parseFloat(getComputedStyle(element).maxHeight)`
with `none` = NaN (no numeric max-height, e.g. the computed value `"none"`).
`collided...` fields are the `detectBoundingOverflow(...).collidedBottom`
reads of the respective branches; `selfHeight` and `parentHeight` are the
`getHeight` reads (`none` = NaN; a `>` comparison against NaN is false). -/
structure OElem where
  scrollHeight : ℚ
  parentHeight : Option ℚ
  outerCollidedBottom : Bool
  hasParentNode : Bool
  childCollidedBottom : List Bool
  computedMaxHeight : Option ℚ
  selfHeight : Option ℚ
  rectBottom : ℚ
  innerHeight : ℚ
  docClientHeight : ℚ

/-- Outcome of a `checkOverflow` call: the returned value (`none` models
the `undefined` produced by falling through every branch) and whether the
configuration warning was logged. -/
structure OverflowResult where
  verdict : Option Bool
  warned : Bool
deriving DecidableEq

/-- `mode.endsWith("%")`: the string's last character is `%`. -/
def endsWithPercent (s : String) : Bool := s.data.getLast? = some '%'

/-- Comparison `Math.ceil(a) > Math.ceil(b)` where `b` may be NaN (`none`):
in JavaScript any comparison against NaN is false. -/
def ceilGt (a : ℚ) (b : Option ℚ) : Bool :=
  match b with
  | some q => decide ((⌈a⌉ : ℤ) > ⌈q⌉)
  | none => false

/-- `checkOverflow(element, maxHeightMode)` from src/utilities.js lines
137-215.  `toNum` models JavaScript string-to-number coercion (used by
`isNaN(maxHeightMode)` and the final pixel comparison) and `parseF` models
`parseFloat` (used by the percent branch); both are host functions external
to the repository, `none` = NaN. -/
def checkOverflow (toNum parseF : String → Option ℚ) (el : OElem) (mode : String) :
    OverflowResult :=
  if mode = "parent" then
    { verdict := some (ceilGt el.scrollHeight el.parentHeight), warned := false }
  else if mode = "outerbox" then
    { verdict := some (el.hasParentNode && el.outerCollidedBottom), warned := false }
  else if mode = "innerbox" then
    { verdict := some (el.childCollidedBottom.any (fun b => b)), warned := false }
  else if mode = "css" then
    let warned : Bool :=
      match el.computedMaxHeight with
      | some mh => decide (mh = 0)
      | none => true
    { verdict := some (ceilGt el.scrollHeight el.computedMaxHeight), warned := warned }
  else if mode = "self" then
    { verdict := some (ceilGt el.scrollHeight el.selfHeight), warned := false }
  else if mode = "onScreen" then
    { verdict := some (decide (el.rectBottom > el.innerHeight)), warned := false }
  else if endsWithPercent mode then
    let viewportHeight := max el.docClientHeight el.innerHeight
    let pct := parseF ((mode.replace "%" ""))
    let bound : Option ℚ :=
      match pct with
      | some p => some (viewportHeight * p / 100)
      | none => none
    { verdict := some (ceilGt el.scrollHeight bound), warned := false }
  else if (toNum mode).isSome then
    { verdict := some (ceilGt el.scrollHeight (toNum mode)), warned := false }
  else
    { verdict := none, warned := false }

/-! ### DOM model for the line counter (src/unnamed/part_001) -/

/-- A DOM subtree: an element node carrying its tag name, its computed
`display` value and its child nodes, or a text node.  Elements are
identified by their child-index path from the root (`[]` = the root
element itself). -/
inductive DomNode where
  | elem (tag : String) (display : String) (children : List DomNode) : DomNode
  | text (content : String) : DomNode

/-- Truthiness of `s.trim()` in JavaScript: the string contains a
non-whitespace character. -/
def hasVisibleText (s : String) : Bool := s.data.any (fun c => !c.isWhitespace)

mutual

/-- `Node.textContent`: concatenation of all descendant text. -/
def textContent : DomNode → String
  | DomNode.elem _ _ cs => textContentList cs
  | DomNode.text s => s

/-- Helper of `textContent` for child lists. -/
def textContentList : List DomNode → String
  | [] => ""
  | c :: cs => textContent c ++ textContentList cs

end

/-- Node lookup by child-index path. -/
def nodeAt : DomNode → List ℕ → Option DomNode
  | n, [] => some n
  | n, i :: p =>
    match n with
    | DomNode.elem _ _ cs =>
      match cs.get? i with
      | some c => nodeAt c p
      | none => none
    | DomNode.text _ => none

/-- The DOM `Node.contains` relation on paths: `containsPath p q` holds when
the node at `p` is an inclusive ancestor of the node at `q` (path prefix). -/
def containsPath : List ℕ → List ℕ → Bool
  | [], _ => true
  | _ :: _, [] => false
  | i :: p, j :: q => i == j && containsPath p q

/-- The `TreeWalker(el, SHOW_TEXT)` iteration: all text nodes under the root
in document order, paired with the path of their `parentElement`. -/
def textLeavesList : List DomNode → List ℕ → ℕ → List (String × List ℕ)
  | [], _, _ => []
  | DomNode.text s :: cs, p, i => (s, p) :: textLeavesList cs p (i + 1)
  | DomNode.elem _ _ cs' :: cs, p, i =>
    textLeavesList cs' (p ++ [i]) 0 ++ textLeavesList cs p (i + 1)

/-- Text leaves of the root element (the walker does not visit the root
itself, only its descendants). -/
def textLeaves : DomNode → List (String × List ℕ)
  | DomNode.elem _ _ cs => textLeavesList cs [] 0
  | DomNode.text _ => []

def inlineDisplays : List String := ["inline", "inline-block"]

/-- src/unnamed/part_001 line 77. -/
def blockSemanticTags : List String := ["p", "div", "h1", "h2", "h3", "h4", "h5", "h6", "li"]

/-- src/unnamed/part_001 line 80. -/
def inlineSemanticTags : List String := ["em", "strong", "b", "i", "span"]

/-- The inline-sibling filter of src/unnamed/part_001 lines 90-94: element
children of the container whose display is inline(-block) and whose text
content is non-blank.  (`container.children` contains element nodes only.) -/
def inlineSiblingCount (root : DomNode) (containerPath : List ℕ) : ℕ :=
  match nodeAt root containerPath with
  | some (DomNode.elem _ _ cs) =>
    (cs.filter (fun c =>
      match c with
      | DomNode.elem _ d _ => decide (d ∈ inlineDisplays) && hasVisibleText (textContent c)
      | DomNode.text _ => false)).length
  | _ => 0

/-- The ancestor walk of src/unnamed/part_001 lines 108-116: ascend from the
given path while the current element is inline-displayed; `some q` is the
first non-inline ancestor strictly below the root, `none` means the walk
reached the root (`current === el`).  The fuel argument equals the path
length at the initial call, which the shrinking path can never exhaust. -/
def walkUpAux (root : DomNode) : ℕ → List ℕ → Option (List ℕ)
  | 0, _ => none
  | _ + 1, [] => none
  | fuel + 1, i :: p =>
    match nodeAt root (i :: p) with
    | some (DomNode.elem _ d _) =>
      if d ∈ inlineDisplays then walkUpAux root fuel (i :: p).dropLast else some (i :: p)
    | _ => none

def walkUp (root : DomNode) (p : List ℕ) : Option (List ℕ) :=
  walkUpAux root p.length p

/-- The `elementToMeasure` classification of src/unnamed/part_001 lines
66-122, for a text node whose `parentElement` is at path `pp`. -/
def elementToMeasure (root : DomNode) (pp : List ℕ) : List ℕ :=
  if pp = [] then []
  else
    match nodeAt root pp with
    | some (DomNode.elem ptag pdisplay _) =>
      if ptag ∈ blockSemanticTags || !(decide (pdisplay ∈ inlineDisplays)) then pp
      else if ptag ∈ inlineSemanticTags then
        let container := pp.dropLast
        if container ≠ [] then
          if inlineSiblingCount root container > 1 then container else pp
        else pp
      else
        match walkUp root pp.dropLast with
        | some q => q
        | none => pp
    | _ => pp

/-- The block-set insertion of src/unnamed/part_001 lines 129-144: the root
is pushed as-is when absent; any other candidate first removes the existing
blocks it contains and is then pushed unless an existing block contains it. -/
def insertBlock (a : List (List ℕ)) (etm : List ℕ) : List (List ℕ) :=
  if etm = [] then
    if [] ∈ a then a else a ++ [[]]
  else if etm ∈ a then a
  else
    let a' := a.filter (fun ex => !(containsPath etm ex))
    if a'.any (fun ex => containsPath ex etm) then a' else a' ++ [etm]

/-- `textNodesUnder` of src/unnamed/part_001 lines 55-149: walk the text
leaves in document order, classify each non-blank one, and insert the chosen
element into the block set. -/
def textNodesUnder (root : DomNode) : List (List ℕ) :=
  (textLeaves root).foldl
    (fun a tp => if hasVisibleText tp.1 then insertBlock a (elementToMeasure root tp.2) else a)
    []

/-! ### The line counter itself (src/unnamed/part_001, `lineCount`) -/

/-- The layout oracle for one `lineCount` pass: `rootHeight` is
`getHeight(element)`; per measured block (by path), `elemHeight` /
`rangeRect` are the `getHeight` and Range-rectangle reads before the
synthetic `<br>`+nbsp insertion and `elemHeightBr` / `rangeRectBr` after it
(`none` = Range API unavailable or failing). -/
structure LcMeasure where
  rootHeight : ℚ
  elemHeight : List ℕ → ℚ
  rangeRect : List ℕ → Option ℚ
  elemHeightBr : List ℕ → ℚ
  rangeRectBr : List ℕ → Option ℚ

/-- Whether the element at `p` has a first child (text or element). -/
def hasFirstChild (root : DomNode) (p : List ℕ) : Bool :=
  match nodeAt root p with
  | some (DomNode.elem _ _ cs) => !cs.isEmpty
  | _ => false

/-- `getAccurateHeight` of src/unnamed/part_001 lines 167-185: prefer the
Range-rectangle height when the element has a child and the rectangle
height is positive, else fall back to the element height. -/
def getAccurateHeight (hasChild : Bool) (eh : ℚ) (rr : Option ℚ) : ℚ :=
  if hasChild then
    match rr with
    | some h => if h > 0 then h else eh
    | none => eh
  else eh

/-- The thrown JavaScript error aborting a `lineCount` pass: the
`naturalNodeHeight <= 0` branch (src/unnamed/part_001 line 223) evaluates
`heightCache.set(elementId, 0)` where `elementId` is an undeclared
identifier (its declaration on line 210 is commented out), raising
`ReferenceError: elementId is not defined`. -/
inductive LcError where
  | referenceError
deriving DecidableEq

/-- Result record of `lineCount` (src/unnamed/part_001 lines 292-296). -/
structure LcResult where
  lineCount : ℤ
  naturalHeight : ℚ
  elementsProcessed : ℕ
deriving DecidableEq

/-- Per-block line computation, src/unnamed/part_001 lines 246-261:
`Math.round` is floor of x + 1/2 (ties toward positive infinity), the
count is floored at 1 and capped by `floor(naturalHeight / (delta * 0.5))`
when that cap is positive and smaller. -/
def blockLines (naturalHeight naturalNodeHeight newHeight : ℚ) : ℤ :=
  let additional := newHeight - naturalNodeHeight
  if additional > 0 then
    let l := max 1 ⌊naturalNodeHeight / additional + 1/2⌋
    let cap := ⌊naturalHeight / (additional * (1/2))⌋
    if l > cap ∧ cap > 0 then cap else l
  else if naturalNodeHeight > 0 then 1
  else 0

/-- The `forEach` over measured blocks, src/unnamed/part_001 lines 208-279,
accumulating the total line count.  Reaching a block whose measured natural
height is not positive evaluates the undeclared `elementId` and throws,
aborting the whole pass (`Except.error`). -/
def lineCountBlocks (root : DomNode) (m : LcMeasure) :
    List (List ℕ) → ℤ → Except LcError ℤ
  | [], acc => Except.ok acc
  | p :: ps, acc =>
    let naturalNodeHeight :=
      getAccurateHeight (hasFirstChild root p) (m.elemHeight p) (m.rangeRect p)
    if naturalNodeHeight ≤ 0 then
      Except.error LcError.referenceError
    else
      let newHeight := getAccurateHeight true (m.elemHeightBr p) (m.rangeRectBr p)
      lineCountBlocks root m ps (acc + blockLines m.rootHeight naturalNodeHeight newHeight)

/-- `lineCount` of src/unnamed/part_001 lines 187-297.  Over the integers
the final `isNaN` guard is unrepresentable, so the validation step keeps
only the negative clamp and the non-empty-content floor of lines 283-290. -/
def lineCount (root : DomNode) (m : LcMeasure) : Except LcError LcResult :=
  let naturalHeight := m.rootHeight
  let blocks := textNodesUnder root
  match lineCountBlocks root m blocks 0 with
  | Except.error e => Except.error e
  | Except.ok t0 =>
    let t1 := if t0 < 0 then 0 else t0
    let t2 := if t1 = 0 ∧ hasVisibleText (textContent root) then 1 else t1
    Except.ok { lineCount := t2, naturalHeight := naturalHeight,
                elementsProcessed := blocks.length }

/-! ### Helper lemmas about class-list updates -/

theorem mem_addClass_of_mem {cs : List String} {c : String} (d : String) (h : c ∈ cs) :
    c ∈ addClass cs d := by
  unfold addClass
  split
  · exact h
  · exact List.mem_append_left _ h

theorem mem_addClass_self (cs : List String) (c : String) : c ∈ addClass cs c := by
  unfold addClass
  split
  · assumption
  · exact List.mem_append_right _ (List.mem_singleton_self _)

/-- A bare element: no inline font size, empty class list (shared by the
concrete scenarios below). -/
def el0 : ElemState where
  styleFontSize := none
  classes := []

/-- A measurement oracle under which every probe fits: measured width and
height are always 0, well below the originals. -/
def mFit : Measure where
  initWidth := some 10
  initHeight := some 10
  widthAt := fun _ => 0
  heightAt := fun _ => 0
  lineCountAt := fun _ => 0
  overflowAt := fun _ => none

/-- A measurement oracle under which no probe fits: measured width always
exceeds the original. -/
def mNoFit : Measure where
  initWidth := some 10
  initHeight := some 10
  widthAt := fun _ => 100
  heightAt := fun _ => 0
  lineCountAt := fun _ => 0
  overflowAt := fun _ => none

/-! ### C1: the width gate -/

/-- C1 (amended): when the pre-search width measurement is NaN, `limiter`
returns the `false` sentinel and applies no font-size style, but the early
return at src/limiter.js line 54 skips the class cleanup of line 88, so the
`fullWidth` helper class added at line 38 remains on the element's class
list (as does `growInHeight`, added at line 46, when that setting is on). -/
theorem width_gate_amended (el : ElemState) (s : Settings) (m : Measure)
    (h : m.initWidth = none) :
    (limiter el s m).returned = none ∧
    (limiter el s m).elem.styleFontSize = el.styleFontSize ∧
    fullWidthClass ∈ (limiter el s m).elem.classes ∧
    (s.growInHeight = true → growInHeightClass ∈ (limiter el s m).elem.classes) := by
  unfold limiter
  rw [h]
  refine ⟨rfl, ?_, ?_, ?_⟩
  · cases hg : s.growInHeight <;> simp [hg]
  · cases hg : s.growInHeight <;> simp only [hg, if_true, if_false, Bool.false_eq_true]
    · exact mem_addClass_self _ _
    · exact mem_addClass_of_mem _ (mem_addClass_self _ _)
  · intro hg
    simp only [hg, if_true]
    exact mem_addClass_self _ _

/-- Settings for the C1 scenario, with grow-in-height enabled so that both
helper classes are added before the early return. -/
def c1S : Settings where
  maxFontSize := 100
  minFontSize := 0
  fontUnit := "%"
  growInHeight := true
  widthOnly := false
  maxLines := none
  maxHeight := none

/-- Measurement oracle for the C1 scenario: the element is not laid out, so
`getWidth` returns NaN. -/
def c1M : Measure where
  initWidth := none
  initHeight := none
  widthAt := fun _ => 0
  heightAt := fun _ => 0
  lineCountAt := fun _ => 0
  overflowAt := fun _ => none

/-- C1 (counterexample): on a not-yet-laid-out element (width NaN) with
grow-in-height enabled, the call returns `false` but the class list
afterwards is exactly `[fullWidth, growInHeight]` — both helper classes
remain, contradicting the claim's "no class-list residue (fullWidth /
growInHeight helper classes removed or never added)". -/
theorem width_gate_counterexample :
    (limiter el0 c1S c1M).returned = none ∧
    (limiter el0 c1S c1M).elem.classes = [fullWidthClass, growInHeightClass] ∧
    [fullWidthClass, growInHeightClass] ≠ ([] : List String) := by
  refine ⟨rfl, ?_, by simp⟩
  simp [limiter, el0, c1S, c1M, addClass, fullWidthClass, growInHeightClass]

/-- C1 (witness): the amended theorem applied to the concrete scenario with
grow-in-height enabled, so both residue conjuncts are exercised. -/
theorem width_gate_witness :
    (limiter el0 c1S c1M).returned = none ∧
    (limiter el0 c1S c1M).elem.styleFontSize = el0.styleFontSize ∧
    fullWidthClass ∈ (limiter el0 c1S c1M).elem.classes ∧
    growInHeightClass ∈ (limiter el0 c1S c1M).elem.classes := by
  have h := width_gate_amended el0 c1S c1M rfl
  exact ⟨h.1, h.2.1, h.2.2.1, h.2.2.2 rfl⟩

/-! ### C8: mutation of the settings object -/

/-- C8 (amended): `limiter` never modifies any settings field other than
`widthOnly`; it sets `settings.widthOnly = true` in place (src/limiter.js
line 56) exactly when width is measurable and height is not — so the
caller-supplied settings object is not immutable in that case. -/
theorem settings_mutation_amended (el : ElemState) (s : Settings) (m : Measure) :
    (limiter el s m).settings =
      if m.initWidth.isSome ∧ m.initHeight = none then
        { s with widthOnly := true }
      else s := by
  unfold limiter
  cases hw : m.initWidth <;> cases hh : m.initHeight <;> simp [hh]

/-- Settings for the C8 scenario: `widthOnly` is off on entry. -/
def c8S : Settings where
  maxFontSize := 1
  minFontSize := 1
  fontUnit := "%"
  growInHeight := false
  widthOnly := false
  maxLines := none
  maxHeight := none

/-- Measurement oracle for the C8 scenario: width measurable, height NaN. -/
def c8M : Measure where
  initWidth := some 10
  initHeight := none
  widthAt := fun _ => 0
  heightAt := fun _ => 0
  lineCountAt := fun _ => 0
  overflowAt := fun _ => none

/-- C8 (counterexample): with measurable width and unmeasurable height the
call flips the caller's `settings.widthOnly` from `false` to `true`: the
settings object is mutated, contradicting "no field of settings is
modified". -/
theorem settings_mutation_counterexample :
    c8S.widthOnly = false ∧ (limiter el0 c8S c8M).settings.widthOnly = true := by
  refine ⟨rfl, ?_⟩
  simp [limiter, c8S, c8M]

/-! ### C6: floored commit, unfloored return -/

/-- C6 (confirmed): whenever the binary search runs (the call returns a font
size rather than the `false` sentinel), the font size committed to the
element's style is `Math.floor(fontSize)` with the configured unit
(src/limiter.js line 89) while the returned value is the unfloored
`fontSize` (line 91). -/
theorem floor_commit_unfloored_return (el : ElemState) (s : Settings) (m : Measure)
    (v : ℚ) (hv : (limiter el s m).returned = some v) :
    (limiter el s m).elem.styleFontSize =
      some (((⌊v⌋ : ℤ) : ℚ), if s.fontUnit = "" then "%" else s.fontUnit) := by
  unfold limiter at hv ⊢
  cases hw : m.initWidth with
  | none =>
    rw [hw] at hv
    exact absurd hv (by simp)
  | some w0 =>
    rw [hw] at hv
    simp only [Option.some.injEq] at hv
    simp [← hv]

/-- Settings for the C6 scenario: the range is the single size 0.5, whose
floor differs from it. -/
def c6S : Settings where
  maxFontSize := 1/2
  minFontSize := 1/2
  fontUnit := "%"
  growInHeight := false
  widthOnly := false
  maxLines := none
  maxHeight := none

/-- Measurement oracle for the C6 scenario: every probe fits. -/
def c6M : Measure where
  initWidth := some 10
  initHeight := some 10
  widthAt := fun _ => 0
  heightAt := fun _ => 0
  lineCountAt := fun _ => 0
  overflowAt := fun _ => none

/-- C6 (witness): the concrete search converges to 0.5 and the committed
style is its floor 0 with unit `%`, while 0.5 itself is returned. -/
theorem floor_commit_witness :
    (limiter el0 c6S c6M).returned = some (1/2 : ℚ) ∧
    (limiter el0 c6S c6M).elem.styleFontSize = some ((0 : ℚ), "%") := by
  have hv : (limiter el0 c6S c6M).returned = some (1/2 : ℚ) := by
    simp only [limiter, el0, c6S, c6M]
    simp only [Option.some.injEq, reduceCtorEq, if_false, if_true]
    norm_num
    rw [limiterLoop]
    norm_num [round2, probeFits, probeElem]
    rw [limiterLoop]
    norm_num
  refine ⟨hv, ?_⟩
  have h := floor_commit_unfloored_return el0 c6S c6M (1/2) hv
  rw [h]
  norm_num [c6S]

/-! ### C4: bounds of the converged font size -/

/-- The best fit returned by the search loop stays within `[lo, hi]` as long
as the endpoints are on the two-decimal grid and the loop state starts
inside the interval: the rounded midpoint can then never escape it. -/
theorem limiterLoop_result_bounds (m : Measure) (s : Settings) (w0 : ℚ) (h0 : Option ℚ)
    (unit : String) (lo hi : ℚ) (low high fontSize : ℚ) (el : ElemState) :
    Centi low → Centi high → lo ≤ low → high ≤ hi → lo ≤ fontSize → fontSize ≤ hi →
    lo ≤ (limiterLoop m s w0 h0 unit low high fontSize el).1 ∧
      (limiterLoop m s w0 h0 unit low high fontSize el).1 ≤ hi := by
  induction low, high, fontSize, el using limiterLoop.induct m s w0 h0 unit with
  | case1 low high fontSize el hle mid elNext hfit ih =>
    intro hCl hCh hlo hhi _ _
    have hmid := round2_mid_mem hCl hCh hle
    rw [limiterLoop, dif_pos hle]
    simp only [hfit, if_true]
    exact ih (centi_add_hundredth (centi_round2 _)) hCh (by linarith [hmid.1])
      hhi (by linarith [hmid.1]) (by linarith [hmid.2])
  | case2 low high fontSize el hle mid elNext hfit ih =>
    intro hCl hCh hlo hhi hf1 hf2
    have hmid := round2_mid_mem hCl hCh hle
    rw [limiterLoop, dif_pos hle]
    simp only [hfit, if_false]
    exact ih hCl (centi_sub_hundredth (centi_round2 _)) hlo
      (by linarith [hmid.2]) hf1 hf2
  | case3 low high fontSize el hle =>
    intro _ _ _ _ hf1 hf2
    rw [limiterLoop, dif_neg hle]
    exact ⟨hf1, hf2⟩

/-- C4 (amended): the bounds `minFontSize <= result <= maxFontSize` hold for
every run of the search provided `minFontSize <= maxFontSize`, both bounds
lie on the two-decimal grid, and `maxFontSize` is not 0 (a falsy
`maxFontSize` is replaced by the default 100 at src/limiter.js line 52, and
off-grid bounds can be escaped by the two-decimal rounding of the probe). -/
theorem fit_bounds_amended (el : ElemState) (s : Settings) (m : Measure)
    (hmin : Centi s.minFontSize) (hmax : Centi s.maxFontSize)
    (hle : s.minFontSize ≤ s.maxFontSize) (hmz : s.maxFontSize ≠ 0)
    (v : ℚ) (hv : (limiter el s m).returned = some v) :
    s.minFontSize ≤ v ∧ v ≤ s.maxFontSize := by
  unfold limiter at hv
  cases hw : m.initWidth with
  | none =>
    rw [hw] at hv
    exact absurd hv (by simp)
  | some w0 =>
    rw [hw] at hv
    simp only [Option.some.injEq] at hv
    have hlow : (if s.minFontSize = 0 then (0:ℚ) else s.minFontSize) = s.minFontSize := by
      split <;> simp_all
    have hhigh : (if s.maxFontSize = 0 then (100:ℚ) else s.maxFontSize) = s.maxFontSize :=
      if_neg hmz
    rw [hlow, hhigh] at hv
    rw [← hv]
    exact limiterLoop_result_bounds _ _ _ _ _ _ _ _ _ _ _ hmin hmax (le_refl _)
      (le_refl _) (le_refl _) hle

/-- Settings for the C4 counterexample: both bounds are the off-grid value
0.996 (reachable via the `min-font-size` / `max-font-size` attributes). -/
def c4S : Settings where
  maxFontSize := 996/1000
  minFontSize := 996/1000
  fontUnit := "%"
  growInHeight := false
  widthOnly := false
  maxLines := none
  maxHeight := none

/-- C4 (counterexample): with `minFontSize = maxFontSize = 0.996` (so the
claim's hypothesis `min <= max` holds) and every probe fitting, the first
midpoint rounds 0.996 up to 1.00, which is accepted and returned: the result
1 exceeds `maxFontSize = 0.996`. -/
theorem fit_bounds_counterexample :
    c4S.minFontSize ≤ c4S.maxFontSize ∧
    (limiter el0 c4S mFit).returned = some 1 ∧
    ¬ ((1 : ℚ) ≤ c4S.maxFontSize) := by
  refine ⟨by norm_num [c4S], ?_, by norm_num [c4S]⟩
  simp only [limiter, el0, c4S, mFit]
  simp only [Option.some.injEq, reduceCtorEq, if_false, if_true]
  norm_num
  rw [limiterLoop]
  norm_num [round2, probeFits, probeElem]
  rw [limiterLoop]
  norm_num

/-- Settings for the C4 witness: min = max = 1 (on the grid, nonzero). -/
def c4WS : Settings where
  maxFontSize := 1
  minFontSize := 1
  fontUnit := "%"
  growInHeight := false
  widthOnly := false
  maxLines := none
  maxHeight := none

/-- C4 (witness): the amended bounds theorem applied to a concrete run that
converges to 1 under grid-aligned bounds min = max = 1. -/
theorem fit_bounds_witness : c4WS.minFontSize ≤ 1 ∧ (1 : ℚ) ≤ c4WS.maxFontSize := by
  have hv : (limiter el0 c4WS mNoFit).returned = some 1 := by
    simp only [limiter, el0, c4WS, mNoFit]
    simp only [Option.some.injEq, reduceCtorEq, if_false, if_true]
    norm_num
    rw [limiterLoop]
    norm_num [round2, probeFits, probeElem]
    rw [limiterLoop]
    norm_num
  exact fit_bounds_amended el0 c4WS mNoFit ⟨100, by norm_num [c4WS]⟩
    ⟨100, by norm_num [c4WS]⟩ (by norm_num [c4WS]) (by norm_num [c4WS]) 1 hv

/-! ### C5: per-iteration shrink of the search interval -/

/-- C5 (amended): one iteration of the binary search entered with
`low <= high` shrinks the interval length by at least 0.005 for every
behaviour of the fit predicate — and by at least the claimed 0.01 when `low`
and `high` lie on the two-decimal grid (as they do from the second iteration
on, and from the start with integer settings).  Off the grid the rounded
midpoint may fall outside `[low, high]`, making the shrink as small as
0.005, so the loop still terminates with a bounded iteration count. -/
theorem search_shrink_amended (fits : ℚ → Bool) (low high : ℚ) (hle : low ≤ high) :
    1/200 ≤ (high - low) - ((limiterStep fits low high).2 - (limiterStep fits low high).1) ∧
    (Centi low → Centi high →
      1/100 ≤ (high - low) - ((limiterStep fits low high).2 - (limiterStep fits low high).1)) := by
  unfold limiterStep
  have hgt := round2_gt ((high + low) / 2)
  have hle2 := round2_le ((high + low) / 2)
  cases hf : fits (round2 ((high + low) / 2))
  · simp only [hf, Bool.false_eq_true, if_false]
    constructor
    · linarith
    · intro hCl hCh
      have hmid := round2_mid_mem hCl hCh hle
      linarith [hmid.2]
  · simp only [hf, if_true]
    constructor
    · linarith
    · intro hCl hCh
      have hmid := round2_mid_mem hCl hCh hle
      linarith [hmid.1]

/-- C5 (counterexample): entering an iteration with
`low = high = 0.996` (hence `low <= high`) and a failing probe, the rounded
midpoint is 1.00 and the new interval is `[0.996, 0.99]`: the length shrank
by only 0.006, below the claimed 0.01 per-iteration shrink. -/
theorem search_shrink_counterexample :
    (996/1000 : ℚ) ≤ 996/1000 ∧
    ((996/1000 : ℚ) - 996/1000) -
      ((limiterStep (fun _ => false) (996/1000) (996/1000)).2 -
        (limiterStep (fun _ => false) (996/1000) (996/1000)).1) = 3/500 ∧
    (3/500 : ℚ) < 1/100 := by
  refine ⟨le_refl _, ?_, by norm_num⟩
  norm_num [limiterStep, round2]

/-- C5 (witness): the amended shrink bound applied to the concrete default
range 0-100 with an always-fitting probe. -/
theorem search_shrink_witness :
    1/200 ≤ ((100 : ℚ) - 0) -
      ((limiterStep (fun _ => true) 0 100).2 - (limiterStep (fun _ => true) 0 100).1) :=
  (search_shrink_amended (fun _ => true) 0 100 (by norm_num)).1

/-! ### C9: the `css` policy with no usable max-height -/

/-- C9 (amended): under the `css` policy, when the computed max-height
parses to NaN (no numeric CSS max-height, e.g. the computed value `"none"`),
`checkOverflow` logs the configuration warning and returns the
non-overflowing verdict `false`; it never throws (it is a total function of
its observations).  When the computed max-height parses to 0 — also "no
positive number" — the warning is still logged but the verdict is
overflowing whenever `ceil(scrollHeight) > 0`, so the claim's
non-overflowing verdict only holds in the NaN case. -/
theorem css_policy_amended (toNum parseF : String → Option ℚ) (el : OElem)
    (h : el.computedMaxHeight = none) :
    (checkOverflow toNum parseF el "css").verdict = some false ∧
    (checkOverflow toNum parseF el "css").warned = true := by
  have hp : ¬ "css" = "parent" := by decide
  have ho : ¬ "css" = "outerbox" := by decide
  have hi : ¬ "css" = "innerbox" := by decide
  unfold checkOverflow ceilGt
  rw [h]
  simp [hp, ho, hi]

/-- Element observations for the C9 counterexample: scroll-height 5 and a
CSS `max-height: 0` (parsing to 0, which is "no positive number"). -/
def c9El : OElem where
  scrollHeight := 5
  parentHeight := none
  outerCollidedBottom := false
  hasParentNode := false
  childCollidedBottom := []
  computedMaxHeight := some 0
  selfHeight := none
  rectBottom := 0
  innerHeight := 0
  docClientHeight := 0

/-- C9 (counterexample): with computed max-height 0 (not a positive number)
and scroll-height 5, the warning is logged but the verdict is `true`
(overflowing), not the claimed `false`. -/
theorem css_policy_counterexample :
    (checkOverflow (fun _ => none) (fun _ => none) c9El "css").warned = true ∧
    (checkOverflow (fun _ => none) (fun _ => none) c9El "css").verdict = some true := by
  have hp : ¬ "css" = "parent" := by decide
  have ho : ¬ "css" = "outerbox" := by decide
  have hi : ¬ "css" = "innerbox" := by decide
  constructor <;> norm_num [checkOverflow, ceilGt, c9El, hp, ho, hi]

/-- Element observations for the C9 witness: no CSS max-height at all. -/
def c9WEl : OElem where
  scrollHeight := 5
  parentHeight := none
  outerCollidedBottom := false
  hasParentNode := false
  childCollidedBottom := []
  computedMaxHeight := none
  selfHeight := none
  rectBottom := 0
  innerHeight := 0
  docClientHeight := 0

/-- C9 (witness): the amended theorem applied to an element whose computed
max-height is NaN. -/
theorem css_policy_witness :
    (checkOverflow (fun _ => none) (fun _ => none) c9WEl "css").verdict = some false ∧
    (checkOverflow (fun _ => none) (fun _ => none) c9WEl "css").warned = true :=
  css_policy_amended (fun _ => none) (fun _ => none) c9WEl rfl

/-! ### C10: unrecognized policy strings fall through -/

/-- C10 (confirmed): a policy string that is none of the six keywords, does
not end in `%`, and does not coerce to a number takes no branch of
`checkOverflow`: the function returns `undefined` (`none`) rather than a
boolean, logs nothing, and callers coercing the result to a boolean obtain
`false` (not overflowing). -/
theorem unknown_policy_returns_undefined (toNum parseF : String → Option ℚ) (el : OElem)
    (mode : String)
    (h1 : mode ∉ ["parent", "outerbox", "innerbox", "css", "self", "onScreen"])
    (h2 : endsWithPercent mode = false)
    (h3 : toNum mode = none) :
    (checkOverflow toNum parseF el mode).verdict = none ∧
    (checkOverflow toNum parseF el mode).warned = false ∧
    ((checkOverflow toNum parseF el mode).verdict.getD false) = false := by
  have hp : ¬ mode = "parent" := fun hh => h1 (by rw [hh]; decide)
  have ho : ¬ mode = "outerbox" := fun hh => h1 (by rw [hh]; decide)
  have hi : ¬ mode = "innerbox" := fun hh => h1 (by rw [hh]; decide)
  have hc : ¬ mode = "css" := fun hh => h1 (by rw [hh]; decide)
  have hs : ¬ mode = "self" := fun hh => h1 (by rw [hh]; decide)
  have hos : ¬ mode = "onScreen" := fun hh => h1 (by rw [hh]; decide)
  unfold checkOverflow
  simp [hp, ho, hi, hc, hs, hos, h2, h3]

/-- C10 (witness): the fall-through theorem applied to the concrete policy
string `"bogus"` (not a keyword, no trailing `%`, not numeric). -/
theorem unknown_policy_witness :
    (checkOverflow (fun _ => none) (fun _ => none) c9El "bogus").verdict = none ∧
    (checkOverflow (fun _ => none) (fun _ => none) c9El "bogus").warned = false ∧
    ((checkOverflow (fun _ => none) (fun _ => none) c9El "bogus").verdict.getD false) = false :=
  unknown_policy_returns_undefined (fun _ => none) (fun _ => none) c9El "bogus"
    (by decide) (by decide) rfl

/-! ### C3: non-overlap of the Measurable Block set -/

/-- The non-root pairwise non-overlap invariant of a block list: no block
other than the root contains another block other than the root. -/
def NonRootNonOverlap (a : List (List ℕ)) : Prop :=
  ∀ p ∈ a, ∀ q ∈ a, p ≠ [] → q ≠ [] → p ≠ q → containsPath p q = false

theorem insertBlock_nonRootNonOverlap {a : List (List ℕ)} (etm : List ℕ)
    (h : NonRootNonOverlap a) : NonRootNonOverlap (insertBlock a etm) := by
  intro p hp q hq hpne hqne hpq
  unfold insertBlock at hp hq
  by_cases he : etm = []
  · rw [if_pos he] at hp hq
    by_cases hmem : ([] : List ℕ) ∈ a
    · rw [if_pos hmem] at hp hq
      exact h p hp q hq hpne hqne hpq
    · rw [if_neg hmem] at hp hq
      rcases List.mem_append.mp hp with hp1 | hp1
      · rcases List.mem_append.mp hq with hq1 | hq1
        · exact h p hp1 q hq1 hpne hqne hpq
        · exact absurd (List.mem_singleton.mp hq1) hqne
      · exact absurd (List.mem_singleton.mp hp1) hpne
  · rw [if_neg he] at hp hq
    by_cases hin : etm ∈ a
    · rw [if_pos hin] at hp hq
      exact h p hp q hq hpne hqne hpq
    · rw [if_neg hin] at hp hq
      simp only at hp hq
      cases hany : (a.filter (fun ex => !(containsPath etm ex))).any
          (fun ex => containsPath ex etm) with
      | true =>
        rw [if_pos hany] at hp hq
        exact h p (List.mem_of_mem_filter hp) q (List.mem_of_mem_filter hq) hpne hqne hpq
      | false =>
        rw [if_neg (by rw [hany]; exact Bool.false_ne_true)] at hp hq
        rcases List.mem_append.mp hp with hp1 | hp1
        · rcases List.mem_append.mp hq with hq1 | hq1
          · exact h p (List.mem_of_mem_filter hp1) q (List.mem_of_mem_filter hq1)
              hpne hqne hpq
          · have hqe : q = etm := List.mem_singleton.mp hq1
            subst hqe
            have hfa := List.any_eq_false.mp hany p hp1
            exact Bool.eq_false_iff.mpr hfa
        · have hpe : p = etm := List.mem_singleton.mp hp1
          subst hpe
          rcases List.mem_append.mp hq with hq1 | hq1
          · have := (List.mem_filter.mp hq1).2
            simpa using this
          · exact absurd (List.mem_singleton.mp hq1).symm hpq

theorem foldl_insert_nonRootNonOverlap (root : DomNode) :
    ∀ (l : List (String × List ℕ)) (a : List (List ℕ)), NonRootNonOverlap a →
      NonRootNonOverlap (l.foldl
        (fun a tp => if hasVisibleText tp.1 then insertBlock a (elementToMeasure root tp.2)
          else a) a) := by
  intro l
  induction l with
  | nil => intro a ha; exact ha
  | cons tp l ih =>
    intro a ha
    simp only [List.foldl_cons]
    apply ih
    by_cases hv : hasVisibleText tp.1
    · rw [if_pos hv]
      exact insertBlock_nonRootNonOverlap _ ha
    · rw [if_neg hv]
      exact ha

/-- C3 (amended): the block set built by `textNodesUnder` never contains two
distinct non-root blocks where one is an ancestor of the other — the
containment dedup of the non-root insertion path enforces this.  The root
special case (src/unnamed/part_001 lines 130-134), however, pushes the root
element without any containment dedup, so the claim's inclusion of the
root-selected-as-block case fails: the set can contain the root together
with a previously collected descendant block. -/
theorem block_set_nonoverlap_amended (root : DomNode) :
    ∀ p ∈ textNodesUnder root, ∀ q ∈ textNodesUnder root,
      p ≠ [] → q ≠ [] → p ≠ q → containsPath p q = false := by
  unfold textNodesUnder
  exact foldl_insert_nonRootNonOverlap root (textLeaves root) []
    (fun p hp => absurd hp (List.not_mem_nil p))

/-- The C3 counterexample tree: a root element holding a block child with
text followed by direct text content
(`<text-fit><div>block text</div>hello</text-fit>`). -/
def c3Tree : DomNode :=
  DomNode.elem "text-fit" "block"
    [DomNode.elem "div" "block" [DomNode.text "block text"], DomNode.text "hello"]

/-- C3 (counterexample): on `c3Tree` the walker first collects the `div`
(path `[0]`), then the direct text selects the root (path `[]`), which the
root special case pushes with no dedup: the resulting block set contains
both the root and the `div` it contains, violating non-overlap. -/
theorem block_set_nonoverlap_counterexample :
    textNodesUnder c3Tree = [[0], []] ∧
    ([] : List ℕ) ≠ [0] ∧ containsPath [] [0] = true := by
  refine ⟨?_, by decide, by decide⟩
  simp [textNodesUnder, textLeaves, textLeavesList, c3Tree, elementToMeasure, nodeAt,
    hasVisibleText, insertBlock, blockSemanticTags, inlineSemanticTags, inlineDisplays,
    containsPath]

/-- The C3 witness tree: two sibling block children with text
(`<text-fit><div>a</div><div>b</div></text-fit>`). -/
def c3WTree : DomNode :=
  DomNode.elem "text-fit" "block"
    [DomNode.elem "div" "block" [DomNode.text "a"],
     DomNode.elem "div" "block" [DomNode.text "b"]]

/-- C3 (witness): the amended theorem applied to the two sibling blocks
`[0]` and `[1]` collected from `c3WTree`. -/
theorem block_set_nonoverlap_witness : containsPath [0] [1] = false := by
  have hset : textNodesUnder c3WTree = [[0], [1]] := by
    simp [textNodesUnder, textLeaves, textLeavesList, c3WTree, elementToMeasure, nodeAt,
      hasVisibleText, insertBlock, blockSemanticTags, inlineSemanticTags, inlineDisplays,
      containsPath]
  exact block_set_nonoverlap_amended c3WTree [0] (by rw [hset]; decide) [1]
    (by rw [hset]; decide) (by decide) (by decide) (by decide)

/-! ### C2: blocks with non-positive measured height -/

/-- The C2 failing input: `<text-fit>hello</text-fit>` whose single
measurable block is the root itself. -/
def c2Tree : DomNode := DomNode.elem "text-fit" "block" [DomNode.text "hello"]

/-- The C2 failing measurement: the block measures height 0 (e.g. hidden or
collapsed), so the `naturalNodeHeight <= 0` branch is taken. -/
def c2M : LcMeasure where
  rootHeight := 0
  elemHeight := fun _ => 0
  rangeRect := fun _ => none
  elemHeightBr := fun _ => 0
  rangeRectBr := fun _ => none

/-- C2 (code bug): a block whose measured natural height is 0 does not
contribute 0 lines and let counting continue — the branch evaluates
`heightCache.set(elementId, 0)` where `elementId` is undeclared (its
declaration is commented out), so the pass aborts with a ReferenceError
instead of returning, contrary to the claim, the code's own comment
("Skip elements with no height") and the spec's non-abort guarantee. -/
theorem zero_height_block_throws :
    lineCount c2Tree c2M = Except.error LcError.referenceError := by
  norm_num [lineCount, lineCountBlocks, textNodesUnder, textLeaves, textLeavesList, c2Tree,
    c2M, elementToMeasure, nodeAt, hasVisibleText, insertBlock, hasFirstChild,
    getAccurateHeight]

/-! ### C7: the line-count floor -/

theorem blockLines_nonneg (nh nnh new : ℚ) : 0 ≤ blockLines nh nnh new := by
  unfold blockLines
  dsimp only
  split
  · split
    · rename_i hcap
      exact le_of_lt hcap.2
    · exact le_trans zero_le_one (le_max_left _ _)
  · split
    · norm_num
    · exact le_refl 0

theorem lineCountBlocks_nonneg (root : DomNode) (m : LcMeasure) :
    ∀ (ps : List (List ℕ)) (acc : ℤ), 0 ≤ acc →
      ∀ t, lineCountBlocks root m ps acc = Except.ok t → 0 ≤ t := by
  intro ps
  induction ps with
  | nil =>
    intro acc hacc t ht
    simp only [lineCountBlocks, Except.ok.injEq] at ht
    omega
  | cons p ps ih =>
    intro acc hacc t ht
    simp only [lineCountBlocks] at ht
    split at ht
    · exact absurd ht (by simp)
    · exact ih _ (add_nonneg hacc (blockLines_nonneg _ _ _)) t ht

/-- C7 (amended): for an element with non-empty visible text, whenever
`lineCount` returns normally its result is at least 1 (the negative clamp
and the content-existence floor of src/unnamed/part_001 lines 283-290
guarantee it) — but a block measuring non-positive natural height makes the
call throw instead of returning, so the floor only holds for passes that
complete. -/
theorem line_count_floor_amended (root : DomNode) (m : LcMeasure)
    (hvis : hasVisibleText (textContent root) = true)
    (r : LcResult) (hr : lineCount root m = Except.ok r) :
    1 ≤ r.lineCount := by
  simp only [lineCount] at hr
  cases hb : lineCountBlocks root m (textNodesUnder root) 0 with
  | error e =>
    rw [hb] at hr
    exact absurd hr (by simp)
  | ok t0 =>
    rw [hb] at hr
    have ht0 : (0:ℤ) ≤ t0 :=
      lineCountBlocks_nonneg root m (textNodesUnder root) 0 (le_refl 0) t0 hb
    simp only [Except.ok.injEq] at hr
    rw [← hr]
    simp only
    rw [if_neg (not_lt.mpr ht0)]
    by_cases hz : t0 = 0
    · rw [if_pos ⟨hz, hvis⟩]
    · rw [if_neg (fun hh => hz hh.1)]
      omega

/-- The C7 counterexample element: `<text-fit>hi</text-fit>`. -/
def c7Tree : DomNode := DomNode.elem "text-fit" "block" [DomNode.text "hi"]

/-- The C7 counterexample measurement: the single block measures height 0. -/
def c7M0 : LcMeasure where
  rootHeight := 5
  elemHeight := fun _ => 0
  rangeRect := fun _ => none
  elemHeightBr := fun _ => 0
  rangeRectBr := fun _ => none

/-- C7 (counterexample): an element with non-empty visible text on which
`lineCount` does not return a count at all — the zero-height block aborts
the pass with the ReferenceError — so "returns lineCount >= 1" fails as
stated. -/
theorem line_count_floor_counterexample :
    hasVisibleText (textContent c7Tree) = true ∧
    lineCount c7Tree c7M0 = Except.error LcError.referenceError := by
  constructor
  · simp [hasVisibleText, textContent, textContentList, c7Tree]
  · norm_num [lineCount, lineCountBlocks, textNodesUnder, textLeaves, textLeavesList, c7Tree,
      c7M0, elementToMeasure, nodeAt, hasVisibleText, insertBlock, hasFirstChild,
      getAccurateHeight]

/-- The C7 witness measurement: the block measures 10 naturally and 20 with
the synthetic break appended, giving one line. -/
def c7M : LcMeasure where
  rootHeight := 10
  elemHeight := fun _ => 10
  rangeRect := fun _ => none
  elemHeightBr := fun _ => 20
  rangeRectBr := fun _ => none

/-- C7 (witness): the amended floor applied to a completing concrete pass. -/
theorem line_count_floor_witness :
    1 ≤ (LcResult.mk 1 10 1).lineCount :=
  line_count_floor_amended c7Tree c7M
    (by simp [hasVisibleText, textContent, textContentList, c7Tree])
    (LcResult.mk 1 10 1)
    (by
      norm_num [lineCount, lineCountBlocks, textNodesUnder, textLeaves, textLeavesList,
        c7Tree, c7M, elementToMeasure, nodeAt, hasVisibleText, insertBlock, hasFirstChild,
        getAccurateHeight, blockLines]
      decide)

end TextFit
